import Mathlib

/-!
Verification development for the Gemini 1-minute candle data pipeline
(`get_1m_interval_data.py` plus the `aws_utils.py` upload helper).

The pipeline's core functions are shallowly embedded here:

* `prepare_candle_data`  — the Candle Builder: turns raw candle rows into
  enriched per-minute records and keeps the first `time_window` rows
  (`df.head(time_window)`).
* `prepare_trade_data`   — the Trade Window Collector: anchors one fetch at
  `start_time`, then paginates with `since_tid`, accumulating every returned
  page; the `while` loop is modelled step-indexed (`loopRun` with fuel), the
  successive paginated fetch results being an oracle `pages : Nat → List Trade`.
* `prepare_one_min_candle_data` — the Aggregator: for each candle counts the
  trades whose `timestampms` lies in the candle's half-open interval.  The
  Python writes the counts into the input frame in place
  (`df_candle.at[idx, 'no_of_trades'] = ...` where `df_candle` aliases the
  `candle_data` argument), so the embedding returns both the post-state of
  the candle argument and the projected/renamed final frame.
* `mainModel` — the `main` driver up to the point where the final frame is
  produced (CSV serialization and the S3 upload are external I/O
  collaborators and are not modelled).

Python run-time failures (IndexError from `[0]` on an empty list, NameError
from the unassigned `candle_columns`, AttributeError from `.loc` on `None`,
KeyError from a missing label) are modelled with `Except PyErr`.  Decimal
price/volume columns are modelled as exact rationals; the two timezone
display columns (`candle_open_time_utc` / `candle_open_time_est`) are
injective reformattings of `candle_open_time_epoch` performed by an external
datetime library and carry no further information, so they are not modelled
as separate fields.
-/

/-- Python run-time errors that the embedded functions can raise. -/
inductive PyErr where
  | nameError
  | indexError
  | typeError
  | attributeError
  | keyError
deriving DecidableEq, Repr

/-- One raw candle row as returned by the candle endpoint:
`[open_time_ms, open, high, low, close, base_volume]`. -/
structure RawCandle where
  open_time : Int
  open_price : ℚ
  high_price : ℚ
  low_price : ℚ
  close_price : ℚ
  btc_volume : ℚ
deriving DecidableEq, Repr

/-- One row of the enriched candle frame built by `prepare_candle_data`. -/
structure Candle where
  candle_open_time_epoch : Int
  open_price : ℚ
  high_price : ℚ
  low_price : ℚ
  close_price : ℚ
  btc_volume : ℚ
  trading_pair : String
  usd_volume : ℚ
  no_of_trades : Option Nat
  candle_close_time_epoch : Int
deriving DecidableEq, Repr

/-- One trade row as kept by `prepare_trade_data`
(columns `timestamp, timestampms, tid, price, amount, exchange, type`). -/
structure Trade where
  timestamp : Int
  timestampms : Int
  tid : Int
  price : ℚ
  amount : ℚ
  exchange : String
  type : String
deriving DecidableEq, Repr

/-- Enrichment of one raw row: lines 39-44 of `get_1m_interval_data.py`. -/
def enrichCandle (r : RawCandle) : Candle :=
  { candle_open_time_epoch := r.open_time
    open_price := r.open_price
    high_price := r.high_price
    low_price := r.low_price
    close_price := r.close_price
    btc_volume := r.btc_volume
    trading_pair := "BTCUSD"
    usd_volume := r.btc_volume * r.close_price
    no_of_trades := none
    candle_close_time_epoch := r.open_time + 60000 }

/-- `df.head(n)`: the first `n` rows; `head(None)` (the parameter default)
keeps every row. -/
def dfHead (tw : Option Nat) (l : List Candle) : List Candle :=
  match tw with
  | none => l
  | some n => l.take n

/-- The Candle Builder (`prepare_candle_data`, lines 22-47).  `data = None`
returns `None` early; otherwise the local `candle_columns` is assigned only
when `columns is None`, so a non-null `columns` argument reaches line 38 with
`candle_columns` unbound and raises `NameError`. -/
def prepare_candle_data (data : Option (List RawCandle)) (columns : Option (List String))
    (time_window : Option Nat) : Except PyErr (Option (List Candle)) :=
  match data with
  | none => .ok none
  | some rows =>
    match columns with
    | some _ => .error .nameError
    | none => .ok (some (dfHead time_window (rows.map enrichCandle)))

/-- The boolean row filter of lines 101-104: does trade `t` fall in candle
`c`'s half-open interval `[open_time, close_time)`? -/
def inCandleInterval (c : Candle) (t : Trade) : Bool :=
  decide (c.candle_open_time_epoch ≤ t.timestampms) &&
    decide (t.timestampms < c.candle_close_time_epoch)

/-- Line 105: overwrite a candle's `no_of_trades` with the number of trades
in its interval. -/
def setTradeCount (trades : List Trade) (c : Candle) : Candle :=
  { c with no_of_trades := some (trades.countP (inCandleInterval c)) }

/-- One row of the final frame: the column selection and renaming of
lines 106-118 (`Trading Pair`, …, `Candle Close Time`). -/
structure FinalRow where
  trading_pair : String
  open_price : ℚ
  close_price : ℚ
  high_price : ℚ
  low_price : ℚ
  btc_volume : ℚ
  usd_volume : ℚ
  no_of_trades : Option Nat
  candle_open_time_epoch : Int
  candle_close_time_epoch : Int
deriving DecidableEq, Repr

/-- Column selection/renaming of a processed candle row (lines 106-118). -/
def toFinalRow (c : Candle) : FinalRow :=
  { trading_pair := c.trading_pair
    open_price := c.open_price
    close_price := c.close_price
    high_price := c.high_price
    low_price := c.low_price
    btc_volume := c.btc_volume
    usd_volume := c.usd_volume
    no_of_trades := c.no_of_trades
    candle_open_time_epoch := c.candle_open_time_epoch
    candle_close_time_epoch := c.candle_close_time_epoch }

/-- The Aggregator (`prepare_one_min_candle_data`, lines 88-122).
`df_candle = candle_data` aliases the argument, and the loop writes into it
with `df_candle.at[idx, 'no_of_trades']`, so the function both mutates the
input candle frame and builds the projected final frame from the mutated
rows.  The embedding returns `(post-state of candle_data, df_final)`.  The
trade frame is only read (boolean-mask filtering copies), so it has no
mutation channel to model. -/
def prepare_one_min_candle_data (candle_data : List Candle) (trades_data : List Trade) :
    List Candle × List FinalRow :=
  let df_candle := candle_data.map (setTradeCount trades_data)
  (df_candle, df_candle.map toFinalRow)

/-- State of `prepare_trade_data`'s `while` loop (lines 66-81): the cursor
`tid`, the tracked boundary timestamp held in the reused `end_time`
variable, the page read by the latest fetch (`current_data`), the
accumulated trade list (`trade_data`), and `k`, the number of paginated
(`since_tid`) fetches performed so far. -/
structure CollectState where
  tid : Int
  end_time : Int
  current : List Trade
  acc : List Trade
  k : Nat
deriving DecidableEq, Repr

/-- The loop guard of line 70: `end_time > start_time and len(current_data) != 0`. -/
def guardB (start_time : Int) (s : CollectState) : Bool :=
  decide (start_time < s.end_time) && !s.current.isEmpty

/-- One loop iteration (lines 71-81): fetch the next page from the oracle,
append it to the accumulator, and on a non-empty page move the cursor to its
first trade's `tid` and the boundary to that trade's `timestampms`. -/
def stepCollect (pages : Nat → List Trade) (s : CollectState) : CollectState :=
  match pages s.k with
  | [] => { s with current := [], k := s.k + 1 }
  | t :: ts =>
    { tid := t.tid
      end_time := t.timestampms
      current := t :: ts
      acc := s.acc ++ (t :: ts)
      k := s.k + 1 }

/-- Step-indexed run of the `while` loop: iterate `stepCollect` while the
guard holds, for at most `fuel` iterations.  The Python loop has no cap; a
run that terminates is reproduced exactly by any sufficiently large fuel. -/
def loopRun (pages : Nat → List Trade) (start_time : Int) :
    Nat → CollectState → CollectState
  | 0, s => s
  | fuel + 1, s =>
    if guardB start_time s then loopRun pages start_time fuel (stepCollect pages s) else s

/-- State after the anchor fetch (lines 61-68) returned the non-empty page
`p0`: `tid` is `trade_data[0]["tid"]`, the boundary variable still holds the
`end_time` argument, and no paginated fetch has happened yet. -/
def initState (p0 : List Trade) (tid0 : Int) (end_time : Int) : CollectState :=
  { tid := tid0, end_time := end_time, current := p0, acc := p0, k := 0 }

/-- Concatenation of `n` consecutive oracle pages starting at page index `a`. -/
def pagesConcat (pages : Nat → List Trade) : Nat → Nat → List Trade
  | _, 0 => []
  | a, n + 1 => pages a ++ pagesConcat pages (a + 1) n

/-- The Trade Window Collector (`prepare_trade_data`, lines 49-86).
`firstPage` is the anchor fetch's result (`None` on fetch failure, which
makes `trade_data[0]` raise `TypeError`; an empty list makes it raise
`IndexError`).  `pages k` is the result of the `k`-th paginated fetch.  The
final `DataFrame(trade_data, columns=[...])` projects the seven trade
columns and keeps every row, which on this embedding is the identity. -/
def prepare_trade_data (firstPage : Option (List Trade)) (pages : Nat → List Trade)
    (start_time end_time : Int) (fuel : Nat) : Except PyErr (List Trade) :=
  match firstPage with
  | none => .error .typeError
  | some [] => .error .indexError
  | some (t :: ts) =>
    .ok (loopRun pages start_time fuel (initState (t :: ts) t.tid end_time)).acc

/-- The `main` driver (lines 126-150) up to the final frame.  The second
component records whether any request was made to the trade endpoint.
`prepare_candle_data` is called with `columns=None` and `time_window=10`; a
`None` candle frame makes `df_candle.loc[...]` raise `AttributeError`, and a
frame shorter than 10 rows makes `df_candle.loc[9, ...]` raise `KeyError`,
both before any trade fetch.  CSV write and S3 upload are external I/O and
are not modelled. -/
def mainModel (candleResp : Option (List RawCandle)) (firstTradePage : Option (List Trade))
    (pages : Nat → List Trade) (fuel : Nat) : Except PyErr (List FinalRow) × Bool :=
  match prepare_candle_data candleResp none (some 10) with
  | .error e => (.error e, false)
  | .ok none => (.error .attributeError, false)
  | .ok (some cands) =>
    match cands[9]?, cands[0]? with
    | some c9, some c0 =>
      let candle_oldest_open_time := c9.candle_open_time_epoch
      let candle_recent_open_time := c0.candle_open_time_epoch
      match prepare_trade_data firstTradePage pages candle_oldest_open_time
          candle_recent_open_time fuel with
      | .error e => (.error e, true)
      | .ok trades => (.ok (prepare_one_min_candle_data cands trades).2, true)
    | _, _ => (.error .keyError, false)

/-- Modelled from the words of the spec (§4.2 step 3 and claim C3): the
claimed terminal condition of the pagination loop — the tracked boundary
timestamp has reached or exceeded `newest_open_time`, or the fetched page is
empty.  To be compared with the guard the source actually uses (`guardB`,
which compares the boundary against `start_time`). -/
def specClaimedTermCond (newest_open_time : Int) (s : CollectState) : Prop :=
  newest_open_time ≤ s.end_time ∨ s.current = []

/-- A candle row with its trade count erased; used to speak about all the
other fields of a row at once. -/
def stripCount (c : Candle) : Candle :=
  { c with no_of_trades := none }

/-- A concrete trade with the given `timestampms` and `tid`. -/
def exTrade (ms tid : Int) : Trade :=
  { timestamp := ms / 1000
    timestampms := ms
    tid := tid
    price := 3
    amount := 1
    exchange := "gemini"
    type := "buy" }

/-- Concrete anchor page for the loop examples: one trade at 50 ms. -/
def cexPage0 : List Trade := [exTrade 50 1]

/-- Concrete page oracle: the first paginated fetch returns a trade at
150 ms, the second one at 250 ms, and every later fetch is empty. -/
def cexPages : Nat → List Trade :=
  fun k => if k = 0 then [exTrade 150 2] else if k = 1 then [exTrade 250 3] else []

/-- Loop state after the anchor fetch in the examples: window
`[start, newest] = [0, 100]`. -/
def cexInit : CollectState := initState cexPage0 1 100

/-- A concrete enriched candle covering `[1000, 61000)`. -/
def exCandle : Candle :=
  { candle_open_time_epoch := 1000
    open_price := 100
    high_price := 110
    low_price := 90
    close_price := 105
    btc_volume := 2
    trading_pair := "BTCUSD"
    usd_volume := 210
    no_of_trades := none
    candle_close_time_epoch := 61000 }

/-- Concrete trade list: two trades inside `exCandle`, one far outside. -/
def exTrades : List Trade := [exTrade 1000 11, exTrade 59999 12, exTrade 600000 13]

/-- The same trades with the first two swapped. -/
def exTradesPerm : List Trade := [exTrade 59999 12, exTrade 1000 11, exTrade 600000 13]

/-- A concrete raw candle row with open time 120000 ms. -/
def exRow0 : RawCandle :=
  { open_time := 120000, open_price := 3, high_price := 4, low_price := 2,
    close_price := 3, btc_volume := 5 }

/-- A concrete raw candle row with open time 60000 ms. -/
def exRow1 : RawCandle :=
  { open_time := 60000, open_price := 2, high_price := 3, low_price := 1,
    close_price := 3, btc_volume := 4 }

/-- A concrete raw candle row with open time 0 ms. -/
def exRow2 : RawCandle :=
  { open_time := 0, open_price := 1, high_price := 2, low_price := 1,
    close_price := 2, btc_volume := 7 }

/-- A concrete newest-first raw candle fetch result of three rows. -/
def exRows : List RawCandle := [exRow0, exRow1, exRow2]

/-- Both branches of a loop iteration advance the fetch counter by one. -/
lemma stepCollect_k (pages : Nat → List Trade) (s : CollectState) :
    (stepCollect pages s).k = s.k + 1 := by
  cases h : pages s.k <;> simp [stepCollect, h]

/-- Each iteration appends exactly the fetched page to the accumulator
(an empty page appends nothing, matching `trade_data.extend([])`). -/
lemma stepCollect_acc (pages : Nat → List Trade) (s : CollectState) :
    (stepCollect pages s).acc = s.acc ++ pages s.k := by
  cases h : pages s.k <;> simp [stepCollect, h]

/-- The fetch counter never decreases over a run of the loop. -/
lemma loopRun_k_mono (pages : Nat → List Trade) (start : Int) :
    ∀ (fuel : Nat) (s : CollectState), s.k ≤ (loopRun pages start fuel s).k := by
  intro fuel
  induction fuel with
  | zero => intro s; exact Nat.le_refl _
  | succ n ih =>
    intro s
    by_cases h : guardB start s
    · calc s.k ≤ (stepCollect pages s).k := by rw [stepCollect_k]; exact Nat.le_succ _
        _ ≤ (loopRun pages start n (stepCollect pages s)).k := ih _
        _ = (loopRun pages start (n + 1) s).k := by rw [loopRun, if_pos h]
    · rw [loopRun, if_neg h]

/-- A state failing the guard is a fixed point of the loop for any fuel. -/
lemma loopRun_of_guard_false (pages : Nat → List Trade) (start : Int)
    (fuel : Nat) (s : CollectState) (h : ¬ guardB start s) :
    loopRun pages start fuel s = s := by
  cases fuel with
  | zero => rfl
  | succ n => rw [loopRun, if_neg h]

/-- Running for `a + b` steps is running for `a` steps and then `b` more. -/
lemma loopRun_add (pages : Nat → List Trade) (start : Int) :
    ∀ (a b : Nat) (s : CollectState),
      loopRun pages start (a + b) s = loopRun pages start b (loopRun pages start a s) := by
  intro a
  induction a with
  | zero => intro b s; rw [Nat.zero_add]; rfl
  | succ n ih =>
    intro b s
    by_cases h : guardB start s
    · have : n + 1 + b = (n + b) + 1 := by omega
      rw [this, loopRun, if_pos h, loopRun, if_pos h, ih]
    · rw [loopRun_of_guard_false _ _ _ _ h, loopRun_of_guard_false _ _ _ _ h,
        loopRun_of_guard_false _ _ _ _ h]

/-- Accumulator invariant: a run of the loop appends exactly the pages it
fetched, in fetch order. -/
lemma loopRun_acc (pages : Nat → List Trade) (start : Int) :
    ∀ (fuel : Nat) (s : CollectState),
      (loopRun pages start fuel s).acc =
        s.acc ++ pagesConcat pages s.k ((loopRun pages start fuel s).k - s.k) := by
  intro fuel
  induction fuel with
  | zero => intro s; simp [loopRun, pagesConcat]
  | succ n ih =>
    intro s
    by_cases h : guardB start s
    · rw [loopRun, if_pos h]
      have hk : s.k + 1 ≤ (loopRun pages start n (stepCollect pages s)).k := by
        have := loopRun_k_mono pages start n (stepCollect pages s)
        rwa [stepCollect_k] at this
      have hsub : (loopRun pages start n (stepCollect pages s)).k - s.k =
          ((loopRun pages start n (stepCollect pages s)).k - (s.k + 1)) + 1 := by omega
      rw [ih, stepCollect_acc, stepCollect_k, hsub, pagesConcat, List.append_assoc]
    · rw [loopRun, if_neg h]; simp [pagesConcat]

/-- C2 (code bug in the source): when the anchor call of
`prepare_trade_data` returns zero trades, line 67 evaluates
`trade_data[0]["tid"]` on an empty list and raises `IndexError` — the run
crashes instead of yielding a zero trade count for every candle. -/
theorem prepare_trade_data_empty_first_page_crashes :
    ∀ (pages : Nat → List Trade) (start_time end_time : Int) (fuel : Nat),
      prepare_trade_data (some []) pages start_time end_time fuel =
        .error .indexError := by
  intro pages start_time end_time fuel
  rfl

/-- C3, counterexample: the claimed terminal condition (boundary timestamp
≥ `newest_open_time`, here 100) holds at the state reached after one
iteration (boundary 150, non-empty page), yet the guard the code evaluates
(`end_time > start_time`, i.e. `150 > 0`) is still true and the loop
performs a second paginated fetch. -/
theorem trade_loop_passes_newest_bound :
    specClaimedTermCond 100 (loopRun cexPages 0 1 cexInit) ∧
      guardB 0 (loopRun cexPages 0 1 cexInit) = true ∧
      (loopRun cexPages 0 2 cexInit).k = 2 := by
  refine ⟨?_, ?_, ?_⟩ <;> first
    | decide
    | (simp only [specClaimedTermCond]; decide)

/-- C3 as amended: the loop stops exactly when the boundary timestamp held
in `end_time` is ≤ `start_time` (the oldest candle open time) or the last
fetched page is empty; and whenever the page oracle returns an empty page
at index `M`, a run started before any paginated fetch is finished within
`M + 1` iterations — the guard is then false and further fuel never changes
the state. -/
theorem prepare_trade_data_loop_terminal :
    ∀ (pages : Nat → List Trade) (start_time : Int) (s : CollectState),
      (loopRun pages start_time 1 s = s ↔
        (s.end_time ≤ start_time ∨ s.current = [])) ∧
      (∀ M : Nat, pages M = [] → s.k = 0 →
        guardB start_time (loopRun pages start_time (M + 1) s) = false ∧
        ∀ fuel : Nat, loopRun pages start_time (M + 1 + fuel) s =
          loopRun pages start_time (M + 1) s) := by
  intro pages start_time s
  have hguard : ∀ u : CollectState, guardB start_time u = false ↔
      (u.end_time ≤ start_time ∨ u.current = []) := by
    intro u
    simp [guardB, List.isEmpty_iff, not_lt, Decidable.not_not, or_iff_not_imp_left,
      Bool.and_eq_false_iff]
  constructor
  · constructor
    · intro h
      by_contra hc
      push_neg at hc
      have hg : guardB start_time s = true := by
        simp [guardB, hc.1, List.isEmpty_iff, hc.2]
      have : (loopRun pages start_time 1 s).k = s.k + 1 := by
        rw [loopRun, if_pos hg]
        exact stepCollect_k pages s
      rw [h] at this
      omega
    · intro h
      exact loopRun_of_guard_false pages start_time 1 s
        (by rw [Bool.not_eq_true, hguard]; exact h)
  · intro M hM hk
    have hstop : ∀ d u, u.k + d = M → guardB start_time (loopRun pages start_time (d + 1) u) = false := by
      intro d
      induction d with
      | zero =>
        intro u hu
        by_cases hg : guardB start_time u
        · rw [loopRun, if_pos hg, loopRun]
          have : pages u.k = [] := by rw [Nat.add_zero] at hu; rw [hu]; exact hM
          simp [guardB, stepCollect, this]
        · rw [loopRun, if_neg hg]
          exact Bool.not_eq_true _ |>.mp hg
      | succ n ih =>
        intro u hu
        by_cases hg : guardB start_time u
        · rw [loopRun, if_pos hg]
          exact ih (stepCollect pages u) (by rw [stepCollect_k]; omega)
        · rw [loopRun_of_guard_false pages start_time _ u hg]
          exact Bool.not_eq_true _ |>.mp hg
    have hMstop : guardB start_time (loopRun pages start_time (M + 1) s) = false :=
      hstop M s (by omega)
    refine ⟨hMstop, ?_⟩
    intro fuel
    rw [loopRun_add, loopRun_of_guard_false]
    rw [hMstop]
    simp

/-- Witness for `prepare_trade_data_loop_terminal` at the concrete oracle
`cexPages` (empty from index 2 on) and the concrete anchor state `cexInit`. -/
theorem prepare_trade_data_loop_terminal_witness :
    cexPages 2 = [] ∧ cexInit.k = 0 ∧
      guardB 0 (loopRun cexPages 0 3 cexInit) = false := by
  refine ⟨rfl, rfl, ((prepare_trade_data_loop_terminal cexPages 0 cexInit).2 2 rfl rfl).1⟩

/-- C4: the collector returns exactly the anchor page followed by every
page the loop fetched, in fetch order and unfiltered — no trade from any
page is dropped and none is added, even if some fall outside the candle
window. -/
theorem prepare_trade_data_concat_pages :
    ∀ (pages : Nat → List Trade) (start_time end_time : Int)
      (t : Trade) (ts : List Trade) (fuel : Nat),
      prepare_trade_data (some (t :: ts)) pages start_time end_time fuel =
        .ok ((t :: ts) ++ pagesConcat pages 0
          (loopRun pages start_time fuel (initState (t :: ts) t.tid end_time)).k) := by
  intro pages start_time end_time t ts fuel
  have h := loopRun_acc pages start_time fuel (initState (t :: ts) t.tid end_time)
  simp only [prepare_trade_data]
  rw [h]
  rfl

/-- C1: in the final frame produced by the Aggregator, every candle row
carries as `No of Trades` exactly the number of input trades whose
`timestampms` lies in that candle's half-open interval
`[candle_open_time_epoch, candle_close_time_epoch)`. -/
theorem prepare_one_min_candle_data_counts :
    ∀ (cd : List Candle) (td : List Trade) (i : Nat) (c : Candle),
      cd[i]? = some c →
      ((prepare_one_min_candle_data cd td).2[i]?).map FinalRow.no_of_trades =
        some (some (td.countP fun t =>
          decide (c.candle_open_time_epoch ≤ t.timestampms) &&
            decide (t.timestampms < c.candle_close_time_epoch))) := by
  intro cd td i c h
  simp [prepare_one_min_candle_data, List.getElem?_map, h, toFinalRow, setTradeCount]
  rfl

/-- Witness for `prepare_one_min_candle_data_counts` on one concrete candle
and three concrete trades. -/
theorem prepare_one_min_candle_data_counts_witness :
    ([exCandle] : List Candle)[0]? = some exCandle ∧
      ((prepare_one_min_candle_data [exCandle] exTrades).2[0]?).map FinalRow.no_of_trades =
        some (some (exTrades.countP fun t =>
          decide (exCandle.candle_open_time_epoch ≤ t.timestampms) &&
            decide (t.timestampms < exCandle.candle_close_time_epoch))) :=
  ⟨rfl, prepare_one_min_candle_data_counts [exCandle] exTrades 0 exCandle rfl⟩

/-- C5: the Aggregator output is invariant under permuting the trade list —
its result does not depend on the order in which trades were collected. -/
theorem prepare_one_min_candle_data_perm_invariant :
    ∀ (cd : List Candle) (td td' : List Trade), td.Perm td' →
      prepare_one_min_candle_data cd td = prepare_one_min_candle_data cd td' := by
  intro cd td td' h
  have hset : setTradeCount td = setTradeCount td' := by
    funext c
    unfold setTradeCount
    rw [h.countP_eq]
  simp [prepare_one_min_candle_data, hset]

/-- Witness for `prepare_one_min_candle_data_perm_invariant` at a concrete
transposition of the trade list. -/
theorem prepare_one_min_candle_data_perm_invariant_witness :
    exTrades.Perm exTradesPerm ∧
      prepare_one_min_candle_data [exCandle] exTrades =
        prepare_one_min_candle_data [exCandle] exTradesPerm :=
  ⟨List.Perm.swap (exTrade 59999 12) (exTrade 1000 11) [exTrade 600000 13],
    prepare_one_min_candle_data_perm_invariant [exCandle] exTrades exTradesPerm
      (List.Perm.swap (exTrade 59999 12) (exTrade 1000 11) [exTrade 600000 13])⟩

/-- C6, counterexample: the Aggregator does not leave the input candle set
unchanged — on a concrete candle whose `no_of_trades` is unset, the
post-state of the `candle_data` argument differs from the input, because
line 105 writes the counts into the aliased input frame. -/
theorem prepare_one_min_candle_data_mutates_input :
    (prepare_one_min_candle_data [exCandle] []).1 ≠ [exCandle] := by
  decide

/-- C6 as amended: the Aggregator is a deterministic transform that updates
the input candle set in place: the post-state keeps every field of every
row except `no_of_trades`, which now holds the interval count; the trade
set is only read.  (In the embedding the post-state is the first component
of the result.) -/
theorem prepare_one_min_candle_data_inplace_update :
    ∀ (cd : List Candle) (td : List Trade),
      (prepare_one_min_candle_data cd td).1.map stripCount = cd.map stripCount ∧
      ∀ (i : Nat) (c : Candle), cd[i]? = some c →
        ((prepare_one_min_candle_data cd td).1[i]?).map Candle.no_of_trades =
          some (some (td.countP (inCandleInterval c))) := by
  intro cd td
  constructor
  · simp only [prepare_one_min_candle_data, List.map_map]
    apply List.map_congr_left
    intro c _
    rfl
  · intro i c h
    simp [prepare_one_min_candle_data, List.getElem?_map, h, setTradeCount]

/-- Witness for `prepare_one_min_candle_data_inplace_update` on one
concrete candle and three concrete trades. -/
theorem prepare_one_min_candle_data_inplace_update_witness :
    (prepare_one_min_candle_data [exCandle] exTrades).1.map stripCount =
        [exCandle].map stripCount ∧
      ([exCandle] : List Candle)[0]? = some exCandle ∧
      ((prepare_one_min_candle_data [exCandle] exTrades).1[0]?).map Candle.no_of_trades =
        some (some (exTrades.countP (inCandleInterval exCandle))) :=
  ⟨(prepare_one_min_candle_data_inplace_update [exCandle] exTrades).1, rfl,
    (prepare_one_min_candle_data_inplace_update [exCandle] exTrades).2 0 exCandle rfl⟩

/-- C7: with a non-null raw input and `time_window = N`, the Candle Builder
returns all available rows without error when fewer than `N` rows are
available, and exactly the first `N` rows of the newest-first input (order
preserved, each enriched) when at least `N` rows are available. -/
theorem prepare_candle_data_window :
    ∀ (rows : List RawCandle) (N : Nat),
      (rows.length < N →
        prepare_candle_data (some rows) none (some N) =
          .ok (some (rows.map enrichCandle))) ∧
      (N ≤ rows.length →
        prepare_candle_data (some rows) none (some N) =
          .ok (some ((rows.take N).map enrichCandle)) ∧
        ((rows.take N).map enrichCandle).length = N) := by
  intro rows N
  constructor
  · intro h
    simp only [prepare_candle_data, dfHead]
    rw [List.take_of_length_le (by rw [List.length_map]; omega)]
  · intro h
    constructor
    · simp only [prepare_candle_data, dfHead]
      rw [List.map_take]
    · rw [List.length_map, List.length_take]
      omega

/-- Witness for `prepare_candle_data_window`: three concrete rows, once
with `N = 5` (short input) and once with `N = 2` (long input). -/
theorem prepare_candle_data_window_witness :
    (exRows.length < 5 ∧
      prepare_candle_data (some exRows) none (some 5) =
        .ok (some (exRows.map enrichCandle))) ∧
    (2 ≤ exRows.length ∧
      prepare_candle_data (some exRows) none (some 2) =
        .ok (some ((exRows.take 2).map enrichCandle)) ∧
      ((exRows.take 2).map enrichCandle).length = 2) :=
  ⟨⟨by decide, (prepare_candle_data_window exRows 5).1 (by decide)⟩,
    ⟨by decide, (prepare_candle_data_window exRows 2).2 (by decide)⟩⟩

/-- C8: every row of any Candle Builder output satisfies the two derived
field equations `close_time = open_time + 60000` and
`quote_volume = base_volume * close_price`. -/
theorem prepare_candle_data_derived_fields :
    ∀ (data : Option (List RawCandle)) (columns : Option (List String))
      (tw : Option Nat) (out : List Candle) (c : Candle),
      prepare_candle_data data columns tw = .ok (some out) → c ∈ out →
      c.candle_close_time_epoch = c.candle_open_time_epoch + 60000 ∧
      c.usd_volume = c.btc_volume * c.close_price := by
  intro data columns tw out c hok hmem
  cases data with
  | none => exact absurd hok (by simp [prepare_candle_data])
  | some rows =>
    cases columns with
    | some cols => exact absurd hok (by simp [prepare_candle_data])
    | none =>
      have hout : dfHead tw (rows.map enrichCandle) = out := by
        simpa [prepare_candle_data] using hok
      have hsub : c ∈ rows.map enrichCandle := by
        cases tw with
        | none => rw [← hout] at hmem; simpa [dfHead] using hmem
        | some n =>
          rw [← hout] at hmem
          exact List.take_subset n _ (by simpa [dfHead] using hmem)
      rcases List.mem_map.mp hsub with ⟨r, _, rfl⟩
      exact ⟨rfl, rfl⟩

/-- Witness for `prepare_candle_data_derived_fields` on a concrete
three-row fetch result, checking the first output row. -/
theorem prepare_candle_data_derived_fields_witness :
    prepare_candle_data (some exRows) none (some 10) =
      .ok (some ((exRows.map enrichCandle).take 10)) ∧
    enrichCandle exRow0 ∈ (exRows.map enrichCandle).take 10 ∧
    ((enrichCandle exRow0).candle_close_time_epoch =
        (enrichCandle exRow0).candle_open_time_epoch + 60000 ∧
      (enrichCandle exRow0).usd_volume =
        (enrichCandle exRow0).btc_volume * (enrichCandle exRow0).close_price) :=
  ⟨rfl, List.Mem.head _,
    prepare_candle_data_derived_fields (some exRows) none (some 10)
      ((exRows.map enrichCandle).take 10) (enrichCandle exRow0) rfl (List.Mem.head _)⟩

/-- C9: when the candle fetch yields no data, `main` stops before the trade
endpoint is ever contacted: `prepare_candle_data` short-circuits to `None`
(logging the reason) and the subsequent `df_candle.loc[...]` access aborts
the run, so the trade-fetch flag stays `false` whatever the trade endpoint
would have answered. -/
theorem main_aborts_before_trade_fetch :
    ∀ (firstTradePage : Option (List Trade)) (pages : Nat → List Trade) (fuel : Nat),
      mainModel none firstTradePage pages fuel = (.error .attributeError, false) := by
  intro firstTradePage pages fuel
  rfl

/-- C10, counterexample: a call with a non-null `columns` argument that
does not fail — when `data` is `None`, the function returns `None` on
line 35 before ever reaching the unassigned `candle_columns`. -/
theorem prepare_candle_data_columns_with_none_data :
    prepare_candle_data none (some ["candle_open_time_epoch"]) (some 10) = .ok none := by
  rfl

/-- C10 as amended: whenever the data argument is non-null, a non-null
`columns` argument makes `prepare_candle_data` raise `NameError`, because
`candle_columns` is assigned only on the `columns is None` branch — so the
`columns` parameter can never be used to relabel the candle data. -/
theorem prepare_candle_data_columns_name_error :
    ∀ (rows : List RawCandle) (cols : List String) (tw : Option Nat),
      prepare_candle_data (some rows) (some cols) tw = .error .nameError := by
  intro rows cols tw
  rfl
